import Mathlib

/-!
Verification development for the saute-grenouille game core
(src/grenouille.py).  The Python source is shallowly embedded:
pygame surfaces and sounds are abstracted to identifiers, the float
positions are modelled as integers (the source only ever adds integer
deltas to integer starting positions, and truncates to int before the
mask offset computation), and the Python object identity used by the
collision debounce is modelled with numeric ids.  Effects are embedded
by their counter state together with the identity of the state cell
they are attached to; the mutation an effect applies to its target
each tick is not needed by any statement below and is left abstract.
-/

/-- Settings.WIDTH, grenouille.py line 9. -/
def WIDTH : Int := 800

/-- Settings.HEIGHT, grenouille.py line 10. -/
def HEIGHT : Int := 400

/-- Settings.GRAVITY, grenouille.py line 11. -/
def GRAVITY : Int := 1

/-- Settings.JUMP_FORCE, grenouille.py line 12. -/
def JUMP_FORCE : Int := -15

/-- Settings.OBSTACLE_SPEED, grenouille.py line 13. -/
def OBSTACLE_SPEED : Int := 5

/-- Settings.FPS, grenouille.py line 14. -/
def FPS : Int := 30

/-- Settings.MIN_OBSTACLE_SPACE, grenouille.py line 15. -/
def MIN_OBSTACLE_SPACE : Int := 90

/-- Identity of the mutable state cell an effect is attached to:
the transform of the player (VibrationEffect target at line 394),
the display_destroyed boolean cell of the player (BooleanToggleEffect
target at line 400), or no target (SoundEffect, line 113). -/
inductive TargetRef where
  | playerTransform
  | playerBlink
  | noTarget
deriving DecidableEq

/-- The three sound resources queued by the core: collision.ogg,
vie.ogg and bonus.ogg (Resources, lines 177-179). -/
inductive SoundId where
  | collision
  | life
  | bonus
deriving DecidableEq

/-- The IEffect variants of grenouille.py:
VibrationEffect (lines 93-108) with duration, magnitude,
rotation_speed and alternating direction; SoundEffect (lines 111-123)
with its played flag; BooleanToggleEffect (lines 126-138) with
duration and oscillation_counter. -/
inductive EffectE where
  | vibration (target : TargetRef) (duration magnitude rotation_speed direction : Int)
  | soundFx (s : SoundId) (played : Bool)
  | toggle (target : TargetRef) (duration oscillation_counter : Int)
deriving DecidableEq

/-- One advance of an effect (the update methods at lines 101-105,
117-120 and 132-135): the vibration flips its direction and
decrements its duration, the sound marks itself played, the toggle
increments its oscillation counter and decrements its duration.  The
mutation of the target cell is abstracted away. -/
def EffectE.update : EffectE → EffectE
  | .vibration t d m r dir => .vibration t (d - 1) m r (-dir)
  | .soundFx s _ => .soundFx s true
  | .toggle t d c => .toggle t (d - 1) (c + 1)

/-- The is_finished tests at lines 107-108, 122-123 and 137-138. -/
def EffectE.is_finished : EffectE → Bool
  | .vibration _ d _ _ _ => decide (d ≤ 0)
  | .soundFx _ p => p
  | .toggle _ d _ => decide (d ≤ 0)

/-- EffectManager.update (lines 148-151): advance every active effect
once, then keep only the unfinished ones. -/
def emUpdate (l : List EffectE) : List EffectE :=
  (l.map EffectE.update).filter (fun e => ! e.is_finished)

/-- Iterated EffectManager ticks. -/
def emIterate : Nat → List EffectE → List EffectE
  | 0, l => l
  | k + 1, l => emIterate k (emUpdate l)

/-- The player, class Grenouille (lines 339-401).  The transform is
flattened to integer coordinates x and y, the pygame mask to a list of
pixel coordinates, the display_destroyed BooleanState cell to a Bool
field, and destroyer_effect to the duration and oscillation counter of
the attached BooleanToggleEffect (the object referenced both from the
player and from the effect manager list). -/
structure Grenouille where
  x : Int
  y : Int
  width : Int := 40
  height : Int := 40
  vy : Int := 0
  on_ground : Bool := true
  lives : Int := 5
  mask : List (Int × Int) := []
  display_destroyed : Bool := false
  destroyer_effect : Option (Int × Int) := none
  is_crouching : Bool := false
deriving DecidableEq

/-- Grenouille.in_destroy_mode (lines 356-357). -/
def Grenouille.in_destroy_mode (p : Grenouille) : Bool :=
  p.destroyer_effect.isSome

/-- Grenouille.jump (lines 359-362). -/
def Grenouille.jump (p : Grenouille) : Grenouille :=
  if p.on_ground then { p with vy := JUMP_FORCE, on_ground := false } else p

/-- Grenouille.crouch (lines 364-366). -/
def Grenouille.crouch (p : Grenouille) : Grenouille :=
  if p.on_ground then { p with is_crouching := true } else p

/-- Grenouille.uncrouch (lines 368-370). -/
def Grenouille.uncrouch (p : Grenouille) : Grenouille :=
  if p.on_ground then { p with is_crouching := false } else p

/-- The destroyer-effect staleness check at the top of
Grenouille.update (lines 373-374): drop the reference once the
attached toggle effect is finished, that is once its duration is
at most zero. -/
def destroyerCheck (p : Grenouille) : Grenouille :=
  match p.destroyer_effect with
  | some dc => if dc.1 ≤ 0 then { p with destroyer_effect := none } else p
  | none => p

/-- The update the effect manager applies each tick to the
BooleanToggleEffect referenced by destroyer_effect (lines 132-135):
the same object sits in the manager list, so its duration decrement
and counter increment are visible through the player reference. -/
def destroyerStep (p : Grenouille) : Grenouille :=
  { p with destroyer_effect := p.destroyer_effect.map (fun dc => (dc.1 - 1, dc.2 + 1)) }

/-- One game frame as seen by the destroyer timer: Game.run calls
player.update (staleness check, lines 373-374) and then level.update,
whose first statement runs the effect manager (line 317) and hence
advances the attached toggle once. -/
def destroyerTick (p : Grenouille) : Grenouille :=
  destroyerStep (destroyerCheck p)

/-- Grenouille.update physics (lines 372-381): staleness check,
gravity, vertical motion, and landing clamp. -/
def Grenouille.updateStep (p : Grenouille) : Grenouille :=
  let p1 := destroyerCheck p
  let p2 := { p1 with vy := p1.vy + GRAVITY }
  let p3 := { p2 with y := p2.y + p2.vy }
  if HEIGHT - p3.height ≤ p3.y then
    { p3 with y := HEIGHT - p3.height, on_ground := true, vy := 0 }
  else p3

/-- Grenouille.activate_destroyer_mode (lines 399-401): a fresh
BooleanToggleEffect of duration FPS*3 targeting the display_destroyed
cell replaces destroyer_effect and is added to the effect manager. -/
def activate_destroyer_mode (p : Grenouille) (effects : List EffectE) :
    Grenouille × List EffectE :=
  ({ p with destroyer_effect := some (FPS * 3, 0) },
   effects ++ [.toggle .playerBlink (FPS * 3) 0])

/-- The two obstacle variants, Rock and DeadlyPlant. -/
inductive ObstacleKind where
  | rock
  | plant
deriving DecidableEq

/-- An obstacle (Rock, lines 213-237, or DeadlyPlant, lines 240-275).
The id models Python object identity, which the collision debounce
compares with the != operator.  The mask abstracts the pygame pixel
mask of the rock sprite. -/
structure Obstacle where
  id : Nat
  kind : ObstacleKind
  x : Int
  y : Int
  width : Int
  mask : List (Int × Int) := []
  destroyed : Bool := false
deriving DecidableEq

/-- The pygame mask overlap test used by Rock.check_collision
(lines 234-237): the obstacle mask is offset by the integer position
delta relative to the player mask, and a hit is a pixel q of the
player mask such that q minus the offset lies in the obstacle mask. -/
def maskOverlap (pm om : List (Int × Int)) (off : Int × Int) : Bool :=
  pm.any (fun q => om.any (fun z => decide (z.1 = q.1 - off.1 ∧ z.2 = q.2 - off.2)))

/-- The polymorphic check_collision dispatch: Rock (lines 234-237)
runs the mask test; DeadlyPlant (lines 271-275) returns false
unconditionally while the player is crouching and otherwise tests
horizontal interval overlap only. -/
def Obstacle.check_collision (ob : Obstacle) (p : Grenouille) : Bool :=
  match ob.kind with
  | .rock => maskOverlap p.mask ob.mask (ob.x - p.x, ob.y - p.y)
  | .plant =>
      if p.is_crouching then false
      else decide (ob.x < p.x + p.width) && decide (ob.x + ob.width > p.x)

/-- The lives decrement performed by the damage branch of
CollisionHandler.handle_collision (line 418): an unclamped
decrement. -/
def damageLives (l : Int) : Int := l - 1

/-- The guarded heal performed by the Life branch of
CollisionHandler.catch_bonus (lines 428-429): increment only while
below the cap of 5. -/
def healLives (l : Int) : Int := if l < 5 then l + 1 else l

/-- The two bonus kinds, the strings vie and destroy in the source
(line 313). -/
inductive BonusKind where
  | vie
  | destroy
deriving DecidableEq

/-- A Bonus (lines 278-294): a 20 by 20 box with a kind. -/
structure BonusE where
  x : Int
  y : Int
  width : Int := 20
  height : Int := 20
  kind : BonusKind
deriving DecidableEq

/-- CollisionHandler state (lines 404-408): the player, the shared
effect manager list, and last_collided_obstacle held by id. -/
structure HState where
  player : Grenouille
  effects : List EffectE := []
  last_collided : Option Nat := none
deriving DecidableEq

/-- CollisionHandler.handle_collision (lines 410-420).  Returns the
updated handler state together with the possibly destroyed obstacle.
The damage branch queues the vibration (duration 10, default
magnitude 5 and rotation speed 10, direction 1, attached to the
player transform, line 394), sets vy to JUMP_FORCE // 2 which is
Python floor division, decrements lives, and queues the collision
sound; the token update at line 420 runs in both branches. -/
def handleCollision (st : HState) (ob : Obstacle) : HState × Obstacle :=
  if ob.check_collision st.player then
    if st.last_collided ≠ some ob.id then
      if st.player.in_destroy_mode then
        ({ st with last_collided := some ob.id }, { ob with destroyed := true })
      else
        ({ st with
            player := { st.player with
                        vy := Int.fdiv JUMP_FORCE 2,
                        lives := damageLives st.player.lives },
            effects := st.effects ++
              [.vibration .playerTransform 10 5 10 1, .soundFx .collision false],
            last_collided := some ob.id }, ob)
    else (st, ob)
  else (st, ob)

/-- The axis-aligned bounding box overlap guard of
CollisionHandler.catch_bonus (lines 423-427). -/
def bonusOverlap (p : Grenouille) (b : BonusE) : Bool :=
  decide (p.x < b.x + b.width) && decide (p.x + p.width > b.x) &&
  decide (p.y < b.y + b.height) && decide (p.y + p.height > b.y)

/-- CollisionHandler.catch_bonus (lines 422-436): returns the updated
state and the boolean return value that the Game loop uses to decide
removal from the bonus queue (lines 621-623).  A Life bonus while
lives are below 5 heals and queues the life sound; a DestroyerGrant
activates destroyer mode and queues the bonus sound; every other
overlap falls through to the final return False. -/
def catchBonus (st : HState) (b : BonusE) : HState × Bool :=
  if ! bonusOverlap st.player b then (st, false)
  else if b.kind = .vie ∧ st.player.lives < 5 then
    ({ st with
        player := { st.player with lives := st.player.lives + 1 },
        effects := st.effects ++ [.soundFx .life false] }, true)
  else if b.kind = .destroy then
    let pe := activate_destroyer_mode st.player st.effects
    ({ st with player := pe.1, effects := pe.2 ++ [.soundFx .bonus false] }, true)
  else (st, false)

/-- The bonus scan of Game.run (lines 621-623): catch_bonus on each
queued bonus in order, removing exactly those for which it returned
True. -/
def bonusPass (st : HState) : List BonusE → HState × List BonusE
  | [] => (st, [])
  | b :: rest =>
      let r := catchBonus st b
      let q := bonusPass r.1 rest
      if r.2 then q else (q.1, b :: q.2)

/-- The Level state (lines 297-302): the two bounded queues and the
x coordinate recorded for the most recently spawned obstacle. -/
structure Level where
  obstacles : List Obstacle := []
  bonuses : List BonusE := []
  last_obstacle_x : Int := 0
deriving DecidableEq

/-- The x position given to a newly spawned obstacle (Rock and
DeadlyPlant constructors, lines 216-218 and 243-245): the screen
width for the very first obstacle, otherwise the maximum of the
screen width and last x plus the minimum spacing. -/
def spawnX (last_x : Int) : Int :=
  if last_x = 0 then WIDTH else max WIDTH (last_x + MIN_OBSTACLE_SPACE)

/-- Append to a collections.deque with maxlen cap: when full, the
oldest elements are dropped from the front so that the new element
always enters at the back. -/
def dequeAppend {α : Type} (cap : Nat) (l : List α) (x : α) : List α :=
  if l.length < cap then l ++ [x] else l.drop (l.length + 1 - cap) ++ [x]

/-- Rock.__init__ (lines 214-225): the sprite index is random, so the
resulting width and pixel mask are parameters here; the rock sits at
ground level. -/
def mkRock (id : Nat) (last_x : Int) (w : Int) (m : List (Int × Int)) : Obstacle :=
  { id := id, kind := .rock, x := spawnX last_x, y := HEIGHT - 40, width := w, mask := m }

/-- DeadlyPlant.__init__ (lines 241-258): the plant sprite is scaled
to 40 by 40 and sits 30 above the player ground level. -/
def mkPlant (id : Nat) (last_x : Int) : Obstacle :=
  { id := id, kind := .plant, x := spawnX last_x, y := HEIGHT - 70, width := 40 }

/-- Level.add_obstacle (lines 304-310): flip a fair coin between
Rock and DeadlyPlant (the coin, the fresh id and the rock geometry
are parameters), append to the bounded obstacle queue, and record
the new spawn x in last_obstacle_x. -/
def addObstacle (coin : Bool) (id : Nat) (w : Int) (m : List (Int × Int))
    (lv : Level) : Level :=
  let ob := if coin then mkRock id lv.last_obstacle_x w m else mkPlant id lv.last_obstacle_x
  { lv with obstacles := dequeAppend 10 lv.obstacles ob,
            last_obstacle_x := ob.x }

/-- The spawn test of Level.update (line 319): the obstacle queue is
empty, or the distance from the x coordinate of the last queued
obstacle to the right screen edge exceeds MIN_OBSTACLE_SPACE. -/
def spawnCond (lv : Level) : Bool :=
  match lv.obstacles.getLast? with
  | none => true
  | some ob => decide (MIN_OBSTACLE_SPACE < WIDTH - ob.x)

/-- Lines 319-320 of Level.update: spawn exactly one new obstacle
when the spawn test passes, otherwise leave the queues unchanged. -/
def spawnStep (coin : Bool) (id : Nat) (w : Int) (m : List (Int × Int))
    (lv : Level) : Level :=
  if spawnCond lv then addObstacle coin id w m lv else lv

/-- The per-tick leftward motion of obstacles (lines 227-228 and
260-261). -/
def obstacleMove (ob : Obstacle) : Obstacle :=
  { ob with x := ob.x - OBSTACLE_SPEED }

/-- The per-tick leftward motion of bonuses (lines 287-288). -/
def bonusMove (b : BonusE) : BonusE :=
  { b with x := b.x - OBSTACLE_SPEED }

/-- The retirement test of Level.update (line 323): fully off screen
on the left, or destroyed. -/
def obstacleRetired (ob : Obstacle) : Bool :=
  decide (ob.x + ob.width < 0) || ob.destroyed

/-- Level.update (lines 316-330): run the effect manager, possibly
spawn, move every obstacle and retire the off-screen or destroyed
ones counting one score point each, move every bonus and retire the
off-screen ones.  The random draws and fresh rock geometry are
parameters. -/
def levelUpdate (coin : Bool) (id : Nat) (w : Int) (m : List (Int × Int))
    (effects : List EffectE) (lv : Level) : Level × List EffectE × Nat :=
  let effects2 := emUpdate effects
  let lv2 := spawnStep coin id w m lv
  let moved := lv2.obstacles.map obstacleMove
  let kept := moved.filter (fun ob => ! obstacleRetired ob)
  let score := moved.countP obstacleRetired
  let movedB := lv2.bonuses.map bonusMove
  let keptB := movedB.filter (fun b => decide (0 ≤ b.x + b.width))
  ({ lv2 with obstacles := kept, bonuses := keptB }, effects2, score)

/-- The obstacle scan of Game.run (lines 618-619): handle_collision
on each queued obstacle in order.  Only the handler state matters for
the debounce analysis. -/
def collisionPass (st : HState) : List Obstacle → HState
  | [] => st
  | ob :: rest => collisionPass (handleCollision st ob).1 rest

/-- Whether a scan of this obstacle enters the resolution branch of
handle_collision, that is damages the player or destroys the
obstacle: it collides and it is not the debounce token. -/
def resolves (st : HState) (ob : Obstacle) : Bool :=
  ob.check_collision st.player && ! (decide (st.last_collided = some ob.id))

/-- Observer counting the resolutions performed during one obstacle
scan; the state evolves through handleCollision itself. -/
def collisionCount (st : HState) : List Obstacle → Nat
  | [] => 0
  | ob :: rest =>
      (if resolves st ob then 1 else 0) + collisionCount (handleCollision st ob).1 rest

/-- Move the player to a given position: stands for the physics that
runs between two collision scans, which never touches the mask, the
width or the crouch flag. -/
def Grenouille.setPos (p : Grenouille) (px py : Int) : Grenouille :=
  { p with x := px, y := py }

/-- One simulated frame of a multi-frame overlap scenario: the player
position during the frame and the obstacle queue it is scanned
against. -/
structure Tick where
  px : Int
  py : Int
  obs : List Obstacle
deriving DecidableEq

/-- Run the obstacle scan over several consecutive frames, returning
the final handler state and the total number of resolutions. -/
def runTicks (st : HState) : List Tick → HState × Nat
  | [] => (st, 0)
  | t :: rest =>
      let st0 := { st with player := st.player.setPos t.px t.py }
      let st1 := collisionPass st0 t.obs
      let n := collisionCount st0 t.obs
      let r := runTicks st1 rest
      (r.1, n + r.2)

/-- A lives-changing event: a damage resolution of handle_collision
(line 418) or a Life pickup of catch_bonus (lines 428-429). -/
inductive LEvent where
  | damage
  | heal
deriving DecidableEq

/-- Apply one lives event. -/
def applyLEvent (l : Int) : LEvent → Int
  | .damage => damageLives l
  | .heal => healLives l

/-- Apply a sequence of lives events. -/
def runLEvents (l : Int) : List LEvent → Int
  | [] => l
  | e :: rest => runLEvents (applyLEvent l e) rest

/-- A sequence of lives events is guarded when every damage event
happens while lives are still positive, which is what the Game loop
enforces across ticks by ending the session once lives reach zero
(line 627). -/
def guardedLEvents : Int → List LEvent → Bool
  | _, [] => true
  | l, LEvent.damage :: rest => decide (0 < l) && guardedLEvents (damageLives l) rest
  | l, LEvent.heal :: rest => guardedLEvents (healLives l) rest

/-- The player inputs of one session, as routed by Game.run
(lines 604-610): jump, crouch and uncrouch requests, plus the
physics step of Grenouille.update. -/
inductive POp where
  | jump
  | crouch
  | uncrouch
  | physics
deriving DecidableEq

/-- Apply one player operation. -/
def applyOp (p : Grenouille) : POp → Grenouille
  | .jump => p.jump
  | .crouch => p.crouch
  | .uncrouch => p.uncrouch
  | .physics => p.updateStep

/-- Apply a sequence of player operations. -/
def applyOps (p : Grenouille) : List POp → Grenouille
  | [] => p
  | op :: rest => applyOps (applyOp p op) rest

/-- A sequence of player operations keeps the player airborne at
every uncrouch: no uncrouch request is applied in a grounded
state. -/
def airborneUncrouch : Grenouille → List POp → Bool
  | _, [] => true
  | p, op :: rest =>
      (! (decide (op = POp.uncrouch) && p.on_ground)) && airborneUncrouch (applyOp p op) rest

/-! Helper lemmas shared by several theorems below. -/

/-- A crouching player never collides with a DeadlyPlant
(lines 271-273). -/
theorem plant_immune (ob : Obstacle) (p : Grenouille) (hk : ob.kind = ObstacleKind.plant)
    (hc : p.is_crouching = true) : ob.check_collision p = false := by
  simp [Obstacle.check_collision, hk, hc]

/-- The recorded last_obstacle_x after a spawn is the x of the new
obstacle, which is spawnX of the previous value. -/
theorem addObstacle_last (coin : Bool) (id : Nat) (w : Int) (m : List (Int × Int))
    (lv : Level) :
    (addObstacle coin id w m lv).last_obstacle_x = spawnX lv.last_obstacle_x := by
  cases coin <;> rfl

/-- A spawned obstacle never sits left of the screen width. -/
theorem spawnX_ge_width (l : Int) : WIDTH ≤ spawnX l := by
  unfold spawnX
  split
  · omega
  · exact le_max_left _ _

/-- The spawn position dominates both the screen width and the
previous position plus the minimum spacing. -/
theorem spawnX_ge_max (l : Int) :
    max WIDTH (l + MIN_OBSTACLE_SPACE) ≤ spawnX l := by
  unfold spawnX WIDTH MIN_OBSTACLE_SPACE
  split
  · omega
  · omega

/-- From a nonzero previous position the spawn position advances by
at least the minimum spacing. -/
theorem spawnX_gap (l : Int) (h : l ≠ 0) : MIN_OBSTACLE_SPACE ≤ spawnX l - l := by
  unfold spawnX WIDTH MIN_OBSTACLE_SPACE at *
  rw [if_neg h]
  omega

/-- A deque append always keeps the new element at the back. -/
theorem dequeAppend_getLast {α : Type} (cap : Nat) (l : List α) (x : α) :
    (dequeAppend cap l x).getLast? = some x := by
  unfold dequeAppend
  split <;> simp

/-- C4: every newly spawned obstacle is placed at x at least
max of the screen width and lastObstacleX plus MIN_OBSTACLE_SPACE,
and two consecutively spawned obstacles are at least
MIN_OBSTACLE_SPACE apart at the moment of spawning. -/
theorem C4_spawn_spacing (c1 c2 : Bool) (i1 i2 : Nat) (w1 w2 : Int)
    (m1 m2 : List (Int × Int)) (lv : Level) :
    (addObstacle c1 i1 w1 m1 lv).last_obstacle_x = spawnX lv.last_obstacle_x
    ∧ max WIDTH (lv.last_obstacle_x + MIN_OBSTACLE_SPACE) ≤ spawnX lv.last_obstacle_x
    ∧ (addObstacle c1 i1 w1 m1 lv).obstacles.getLast?.map Obstacle.x
        = some (addObstacle c1 i1 w1 m1 lv).last_obstacle_x
    ∧ MIN_OBSTACLE_SPACE ≤
        (addObstacle c2 i2 w2 m2 (addObstacle c1 i1 w1 m1 lv)).last_obstacle_x
          - (addObstacle c1 i1 w1 m1 lv).last_obstacle_x := by
  refine ⟨addObstacle_last c1 i1 w1 m1 lv, spawnX_ge_max _, ?_, ?_⟩
  · cases c1 <;> simp [addObstacle, dequeAppend_getLast, mkRock, mkPlant]
  · rw [addObstacle_last, addObstacle_last]
    apply spawnX_gap
    have h := spawnX_ge_width lv.last_obstacle_x
    unfold WIDTH at h
    omega

/-- C7: DeadlyPlant.check_collision returns false unconditionally
whenever the player is crouching, while Rock.check_collision is
unaffected by crouching and by every other player state flag
(grounded flag, lives, vertical velocity, blink cell, destroyer
reference). -/
theorem C7_crouch_immunity :
    (∀ (ob : Obstacle) (p : Grenouille), ob.kind = ObstacleKind.plant →
        p.is_crouching = true → ob.check_collision p = false)
    ∧ (∀ (ob : Obstacle) (p : Grenouille) (b c dd : Bool) (l v : Int)
        (de : Option (Int × Int)), ob.kind = ObstacleKind.rock →
        ob.check_collision { p with
                             is_crouching := b,
                             on_ground := c,
                             lives := l,
                             vy := v,
                             display_destroyed := dd,
                             destroyer_effect := de }
          = ob.check_collision p) := by
  constructor
  · exact plant_immune
  · intro ob p b c dd l v de hk
    simp [Obstacle.check_collision, hk]

/-- Witness for C7 at a concrete crouching player, a concrete plant
and a concrete rock. -/
theorem C7_crouch_immunity_witness :
    (Obstacle.check_collision { id := 0, kind := ObstacleKind.plant, x := 110, y := 330, width := 40 }
        { x := 100, y := 360, is_crouching := true } = false)
    ∧ (Obstacle.check_collision
        { id := 1, kind := ObstacleKind.rock, x := 100, y := 360, width := 40, mask := [(0, 0)] }
        { x := 100, y := 360, mask := [(0, 0)], vy := 7, on_ground := false, lives := 2,
          display_destroyed := true, destroyer_effect := some (5, 5), is_crouching := true }
      = Obstacle.check_collision
        { id := 1, kind := ObstacleKind.rock, x := 100, y := 360, width := 40, mask := [(0, 0)] }
        { x := 100, y := 360, mask := [(0, 0)] }) := by
  exact ⟨C7_crouch_immunity.1 _ _ rfl rfl,
         C7_crouch_immunity.2 _ { x := 100, y := 360, mask := [(0, 0)] }
           true false true 2 7 (some (5, 5)) rfl⟩

/-- Counterexample to C2 as stated: the damage decrement of
handle_collision is unclamped, so a sequence of six damage events
starting from full health drives lives to minus one, below the
claimed interval.  The orchestrator only checks for game over at the
end of a frame (line 627), it never clamps the decrement itself. -/
theorem C2_unclamped_damage_cex :
    runLEvents 5 (List.replicate 6 LEvent.damage) = -1
    ∧ ¬ (0 ≤ runLEvents 5 (List.replicate 6 LEvent.damage)) := by
  decide

/-- C2 amended: healing never drives lives above 5, and lives stay
within the interval from 0 to 5 for every guarded sequence of events,
that is as long as each damage event happens while lives are still
positive; the decrement itself is unclamped. -/
theorem C2_lives_interval (l : Int) (es : List LEvent) (h0 : 0 ≤ l) (h5 : l ≤ 5)
    (hg : guardedLEvents l es = true) :
    0 ≤ runLEvents l es ∧ runLEvents l es ≤ 5 := by
  induction es generalizing l with
  | nil => exact ⟨h0, h5⟩
  | cons e rest ih =>
      cases e with
      | damage =>
          simp only [guardedLEvents, Bool.and_eq_true, decide_eq_true_eq] at hg
          simp only [runLEvents, applyLEvent]
          exact ih (damageLives l) (by unfold damageLives; omega)
            (by unfold damageLives; omega) hg.2
      | heal =>
          simp only [guardedLEvents] at hg
          simp only [runLEvents, applyLEvent]
          refine ih (healLives l) ?_ ?_ hg <;> unfold healLives <;> split <;> omega

/-- Witness for C2 amended at the concrete guarded sequence of one
damage followed by one heal, starting from full health. -/
theorem C2_lives_interval_witness :
    (0 ≤ (5 : Int) ∧ (5 : Int) ≤ 5 ∧ guardedLEvents 5 [LEvent.damage, LEvent.heal] = true)
    ∧ (0 ≤ runLEvents 5 [LEvent.damage, LEvent.heal]
        ∧ runLEvents 5 [LEvent.damage, LEvent.heal] ≤ 5) :=
  ⟨by decide, C2_lives_interval 5 [LEvent.damage, LEvent.heal] (by decide) (by decide) (by decide)⟩

/-- Jumping never touches the crouch flag (lines 359-362). -/
theorem jump_is_crouching (p : Grenouille) : (p.jump).is_crouching = p.is_crouching := by
  unfold Grenouille.jump
  split <;> rfl

/-- Crouching keeps the crouch flag set (lines 364-366). -/
theorem crouch_keeps_crouching (p : Grenouille) (h : p.is_crouching = true) :
    (p.crouch).is_crouching = true := by
  unfold Grenouille.crouch
  split
  · rfl
  · exact h

/-- Uncrouching while airborne is a no-op (lines 368-370). -/
theorem uncrouch_airborne (p : Grenouille) (h : p.on_ground = false) :
    p.uncrouch = p := by
  unfold Grenouille.uncrouch
  rw [h]
  rfl

/-- Crouching while airborne is a no-op (lines 364-366). -/
theorem crouch_airborne (p : Grenouille) (h : p.on_ground = false) :
    p.crouch = p := by
  unfold Grenouille.crouch
  rw [h]
  rfl

/-- Jumping while airborne is a no-op (lines 359-362). -/
theorem jump_airborne (p : Grenouille) (h : p.on_ground = false) :
    p.jump = p := by
  unfold Grenouille.jump
  rw [h]
  rfl

/-- The physics step never touches the crouch flag (lines 372-381). -/
theorem updateStep_is_crouching (p : Grenouille) :
    (p.updateStep).is_crouching = p.is_crouching := by
  unfold Grenouille.updateStep destroyerCheck
  dsimp only
  repeat' split
  all_goals rfl

/-- Any sequence of player operations whose uncrouch requests all
happen airborne preserves a set crouch flag. -/
theorem applyOps_crouch (ops : List POp) : ∀ p : Grenouille, p.is_crouching = true →
    airborneUncrouch p ops = true → (applyOps p ops).is_crouching = true := by
  induction ops with
  | nil => intro p h _; exact h
  | cons op rest ih =>
      intro p h hg
      simp only [airborneUncrouch, Bool.and_eq_true] at hg
      show (applyOps (applyOp p op) rest).is_crouching = true
      refine ih (applyOp p op) ?_ hg.2
      cases op with
      | jump => rw [show applyOp p POp.jump = p.jump from rfl, jump_is_crouching]; exact h
      | crouch => exact crouch_keeps_crouching p h
      | uncrouch =>
          have hng : p.on_ground = false := by
            rcases hog : p.on_ground
            · rfl
            · rw [hog] at hg
              simp at hg
          rw [show applyOp p POp.uncrouch = p.uncrouch from rfl, uncrouch_airborne p hng]
          exact h
      | physics =>
          rw [show applyOp p POp.physics = p.updateStep from rfl, updateStep_is_crouching]
          exact h

/-- C10: while airborne, jump, crouch and uncrouch leave the crouch
flag unchanged; jumping from a grounded crouching state does not
clear the crouch flag; and a crouching player stays crouching, hence
DeadlyPlant immune, through any sequence of inputs and physics steps
whose uncrouch requests all happen airborne. -/
theorem C10_airborne_crouch_persists :
    (∀ p : Grenouille, p.on_ground = false →
        (p.jump).is_crouching = p.is_crouching
        ∧ (p.crouch).is_crouching = p.is_crouching
        ∧ (p.uncrouch).is_crouching = p.is_crouching)
    ∧ (∀ p : Grenouille, p.on_ground = true → p.is_crouching = true →
        (p.jump).is_crouching = true)
    ∧ (∀ (ops : List POp) (p : Grenouille), p.is_crouching = true →
        airborneUncrouch p ops = true →
        (applyOps p ops).is_crouching = true
        ∧ ∀ ob : Obstacle, ob.kind = ObstacleKind.plant →
            ob.check_collision (applyOps p ops) = false) := by
  refine ⟨?_, ?_, ?_⟩
  · intro p h
    exact ⟨jump_is_crouching p, by rw [crouch_airborne p h], by rw [uncrouch_airborne p h]⟩
  · intro p _ hc
    rw [jump_is_crouching]
    exact hc
  · intro ops p hc hg
    have h := applyOps_crouch ops p hc hg
    exact ⟨h, fun ob hk => plant_immune ob _ hk h⟩

/-- Witness for C10: a crouching airborne player stays crouching
through a jump request, an uncrouch request and a physics step, all
airborne. -/
theorem C10_airborne_crouch_persists_witness :
    (({ x := 100, y := 200, on_ground := false, is_crouching := true } : Grenouille).is_crouching = true
      ∧ airborneUncrouch { x := 100, y := 200, on_ground := false, is_crouching := true }
          [POp.jump, POp.uncrouch, POp.physics] = true)
    ∧ (applyOps { x := 100, y := 200, on_ground := false, is_crouching := true }
        [POp.jump, POp.uncrouch, POp.physics]).is_crouching = true :=
  ⟨by decide,
   (C10_airborne_crouch_persists.2.2 [POp.jump, POp.uncrouch, POp.physics]
      { x := 100, y := 200, on_ground := false, is_crouching := true }
      (by decide) (by decide)).1⟩

/-- Counterexample to C1 as stated: a Life bonus overlapping a player
at full health leaves lives at 5 and queues no sound, but catch_bonus
returns False for it, so the Game loop (lines 621-623) does not
remove it from the bonus queue. -/
theorem C1_full_health_life_kept_in_queue :
    bonusOverlap ({ x := 100, y := 360 } : Grenouille)
        { x := 110, y := 350, kind := BonusKind.vie } = true
    ∧ (bonusPass { player := { x := 100, y := 360 } }
        [{ x := 110, y := 350, kind := BonusKind.vie }]).2
        = [{ x := 110, y := 350, kind := BonusKind.vie }]
    ∧ (bonusPass { player := { x := 100, y := 360 } }
        [{ x := 110, y := 350, kind := BonusKind.vie }]).1
        = { player := { x := 100, y := 360 } } := by
  decide

/-- C1 amended: a bonus overlapping the player is removed from the
queue exactly when the pickup changed player state, that is for a
Life bonus while lives are below 5 or for any DestroyerGrant; a Life
bonus overlapping a full-health player leaves the whole handler state
unchanged (lives stay 5, no sound queued) and stays in the queue. -/
theorem C1_bonus_removal_gated (st : HState) (b : BonusE)
    (hov : bonusOverlap st.player b = true) :
    ((catchBonus st b).2 = true ↔
      (b.kind = BonusKind.vie ∧ st.player.lives < 5) ∨ b.kind = BonusKind.destroy)
    ∧ (b.kind = BonusKind.vie → st.player.lives = 5 → catchBonus st b = (st, false))
    ∧ (b ∈ (bonusPass st [b]).2 ↔ (catchBonus st b).2 = false) := by
  refine ⟨?_, ?_, ?_⟩
  · rcases hk : b.kind with _ | _
    · by_cases hl : st.player.lives < 5
      · simp [catchBonus, hov, hk, hl]
      · simp [catchBonus, hov, hk, hl]
    · simp [catchBonus, hov, hk]
  · intro hk hl
    simp [catchBonus, hov, hk, hl]
  · rcases hr : (catchBonus st b).2
    · simp [bonusPass, hr]
    · simp [bonusPass, hr]

/-- Witness for C1 amended: a DestroyerGrant overlapping the player
is removed from the queue. -/
theorem C1_bonus_removal_gated_witness :
    bonusOverlap ({ x := 100, y := 360 } : Grenouille)
        { x := 110, y := 350, kind := BonusKind.destroy } = true
    ∧ ((catchBonus { player := { x := 100, y := 360 } }
          { x := 110, y := 350, kind := BonusKind.destroy }).2 = true ↔
        (({ x := 110, y := 350, kind := BonusKind.destroy } : BonusE).kind = BonusKind.vie
            ∧ ({ player := { x := 100, y := 360 } } : HState).player.lives < 5)
          ∨ ({ x := 110, y := 350, kind := BonusKind.destroy } : BonusE).kind = BonusKind.destroy) :=
  ⟨by decide,
   (C1_bonus_removal_gated { player := { x := 100, y := 360 } }
      { x := 110, y := 350, kind := BonusKind.destroy } (by decide)).1⟩

/-- Counterexample to C3 as stated: the spawn test of line 319
measures the distance from the x coordinate (left edge) of the last
obstacle to the right screen edge, not from its trailing edge x plus
width.  With a plant of width 40 at x 705, the code spawns (distance
95 exceeds 90) although the claimed trailing-edge distance is only
55. -/
theorem C3_left_edge_not_trailing_edge :
    spawnCond
      { obstacles := [{ id := 0, kind := ObstacleKind.plant, x := 705, y := 330, width := 40 }],
        last_obstacle_x := 800 } = true
    ∧ (spawnStep true 1 40 []
      { obstacles := [{ id := 0, kind := ObstacleKind.plant, x := 705, y := 330, width := 40 }],
        last_obstacle_x := 800 }).obstacles.length = 2
    ∧ ¬ (MIN_OBSTACLE_SPACE < WIDTH - (705 + 40)) := by
  decide

/-- C3 amended: on each Level.update tick exactly one new obstacle is
spawned exactly when the obstacle queue is empty or the x coordinate
(left edge) of the rightmost obstacle is farther than
MIN_OBSTACLE_SPACE from the right screen edge; the new obstacle is a
Rock or a DeadlyPlant according to the fair coin flip of
add_obstacle, modelled as a boolean parameter. -/
theorem C3_spawn_condition (coin : Bool) (id : Nat) (w : Int) (m : List (Int × Int))
    (lv : Level) :
    (spawnCond lv = true ↔
      lv.obstacles = [] ∨ ∃ ob, lv.obstacles.getLast? = some ob
        ∧ MIN_OBSTACLE_SPACE < WIDTH - ob.x)
    ∧ (spawnCond lv = true → spawnStep coin id w m lv = addObstacle coin id w m lv
        ∧ (spawnStep coin id w m lv).obstacles.getLast?
            = some (if coin then mkRock id lv.last_obstacle_x w m
                    else mkPlant id lv.last_obstacle_x))
    ∧ (spawnCond lv = false → spawnStep coin id w m lv = lv)
    ∧ (lv.obstacles.length < 10 → spawnCond lv = true →
        (spawnStep coin id w m lv).obstacles.length = lv.obstacles.length + 1)
    ∧ (if coin then mkRock id lv.last_obstacle_x w m
       else mkPlant id lv.last_obstacle_x).kind
        = (if coin then ObstacleKind.rock else ObstacleKind.plant) := by
  refine ⟨?_, ?_, ?_, ?_, ?_⟩
  · unfold spawnCond
    rcases h : lv.obstacles.getLast? with _ | ob
    · simp [List.getLast?_eq_none_iff.mp h]
    · have hne : lv.obstacles ≠ [] := by
        intro h0
        rw [h0] at h
        simp at h
      simp [h, hne]
  · intro h
    constructor
    · simp [spawnStep, h]
    · simp [spawnStep, h, addObstacle, dequeAppend_getLast]
  · intro h
    simp [spawnStep, h]
  · intro hlen h
    simp only [spawnStep, h, if_true, addObstacle]
    cases coin <;> simp [dequeAppend, hlen]
  · cases coin <;> rfl

/-- Witness for C3 amended: an empty level spawns, and the spawned
obstacle follows the coin. -/
theorem C3_spawn_condition_witness :
    spawnCond { obstacles := [], bonuses := [], last_obstacle_x := 0 } = true
    ∧ (spawnStep false 0 40 [] { obstacles := [], bonuses := [], last_obstacle_x := 0 }).obstacles.getLast?
        = some (if false then mkRock 0 0 40 [] else mkPlant 0 0) :=
  ⟨by decide,
   ((C3_spawn_condition false 0 40 []
      { obstacles := [], bonuses := [], last_obstacle_x := 0 }).2.1 (by decide)).2⟩

/-- Counterexample to C5 as stated: the bounce-back sets vy with
Python floor division, JUMP_FORCE // 2 = -8, which is not exactly
half of JUMP_FORCE = -15 (no integer is). -/
theorem C5_bounce_not_exact_half :
    ((handleCollision { player := { x := 100, y := 360 } }
        { id := 0, kind := ObstacleKind.plant, x := 110, y := 330, width := 40 }).1.player.vy
      = -8)
    ∧ (2 * (handleCollision { player := { x := 100, y := 360 } }
        { id := 0, kind := ObstacleKind.plant, x := 110, y := 330, width := 40 }).1.player.vy
      ≠ JUMP_FORCE) := by
  decide

/-- C5 amended: a non-debounced obstacle collision resolved against a
player not in destroyer mode attaches a Vibration effect of duration
10 (magnitude 5, rotation speed 10) to the player transform, queues
the collision sound, sets the vertical velocity to the floor division
JUMP_FORCE // 2 (that is -8), decrements lives by exactly 1, and
updates the debounce token. -/
theorem C5_damage_resolution (st : HState) (ob : Obstacle)
    (hc : ob.check_collision st.player = true)
    (hd : st.last_collided ≠ some ob.id)
    (hm : st.player.in_destroy_mode = false) :
    (handleCollision st ob).1.effects
      = st.effects ++ [EffectE.vibration TargetRef.playerTransform 10 5 10 1,
                       EffectE.soundFx SoundId.collision false]
    ∧ (handleCollision st ob).1.player.vy = Int.fdiv JUMP_FORCE 2
    ∧ (handleCollision st ob).1.player.lives = st.player.lives - 1
    ∧ (handleCollision st ob).1.last_collided = some ob.id := by
  simp [handleCollision, hc, hd, hm, damageLives]

/-- Witness for C5 amended at a concrete collision of a plant with a
normal-mode player. -/
theorem C5_damage_resolution_witness :
    (Obstacle.check_collision { id := 0, kind := ObstacleKind.plant, x := 110, y := 330, width := 40 }
        ({ x := 100, y := 360 } : Grenouille) = true
      ∧ ({ player := { x := 100, y := 360 } } : HState).last_collided ≠ some 0
      ∧ ({ x := 100, y := 360 } : Grenouille).in_destroy_mode = false)
    ∧ (handleCollision { player := { x := 100, y := 360 } }
        { id := 0, kind := ObstacleKind.plant, x := 110, y := 330, width := 40 }).1.player.vy
      = Int.fdiv JUMP_FORCE 2 :=
  ⟨⟨by decide, by decide, by decide⟩,
   (C5_damage_resolution { player := { x := 100, y := 360 } }
      { id := 0, kind := ObstacleKind.plant, x := 110, y := 330, width := 40 }
      (by decide) (by decide) (by decide)).2.1⟩

/-- An empty effect manager stays empty. -/
theorem emIterate_nil (k : Nat) : emIterate k [] = [] := by
  induction k with
  | zero => rfl
  | succ k ih => exact ih

/-- Lifecycle of a single VibrationEffect of positive duration d:
over the first d manager ticks it is advanced exactly once per tick,
its duration decreasing by one and its direction alternating, and at
tick d it is finished and purged, never to be advanced again. -/
theorem emIterate_vibration (t : TargetRef) (m r : Int) :
    ∀ (k : Nat) (d dir : Int), 0 < d →
      emIterate k [EffectE.vibration t d m r dir]
        = if (k : Int) < d then [EffectE.vibration t (d - k) m r (dir * (-1) ^ k)] else [] := by
  intro k
  induction k with
  | zero =>
      intro d dir hd
      rw [if_pos (by exact_mod_cast hd)]
      simp [emIterate]
  | succ k ih =>
      intro d dir hd
      show emIterate k (emUpdate [EffectE.vibration t d m r dir]) = _
      have hu : emUpdate [EffectE.vibration t d m r dir]
          = if d - 1 ≤ 0 then [] else [EffectE.vibration t (d - 1) m r (-dir)] := by
        by_cases h1 : d - 1 ≤ 0 <;>
          simp [emUpdate, EffectE.update, EffectE.is_finished, h1]
      rw [hu]
      by_cases h1 : d - 1 ≤ 0
      · rw [if_pos h1, emIterate_nil, if_neg (by push_cast; omega)]
      · rw [if_neg h1, ih (d - 1) (-dir) (by omega)]
        by_cases h2 : (k : Int) < d - 1
        · rw [if_pos h2, if_pos (by push_cast; omega)]
          have e1 : d - 1 - (k : Int) = d - ((k + 1 : Nat) : Int) := by push_cast; ring
          have e2 : (-dir) * (-1 : Int) ^ k = dir * (-1 : Int) ^ (k + 1) := by
            rw [pow_succ]
            ring
          rw [e1, e2]
        · rw [if_neg h2, if_neg (by push_cast; omega)]

/-- Lifecycle of a single BooleanToggleEffect of positive duration d:
advanced exactly once per tick, duration decreasing and oscillation
counter increasing by one, purged at tick d and never advanced
again. -/
theorem emIterate_toggle (t : TargetRef) :
    ∀ (k : Nat) (d c : Int), 0 < d →
      emIterate k [EffectE.toggle t d c]
        = if (k : Int) < d then [EffectE.toggle t (d - k) (c + k)] else [] := by
  intro k
  induction k with
  | zero =>
      intro d c hd
      rw [if_pos (by exact_mod_cast hd)]
      simp [emIterate]
  | succ k ih =>
      intro d c hd
      show emIterate k (emUpdate [EffectE.toggle t d c]) = _
      have hu : emUpdate [EffectE.toggle t d c]
          = if d - 1 ≤ 0 then [] else [EffectE.toggle t (d - 1) (c + 1)] := by
        by_cases h1 : d - 1 ≤ 0 <;>
          simp [emUpdate, EffectE.update, EffectE.is_finished, h1]
      rw [hu]
      by_cases h1 : d - 1 ≤ 0
      · rw [if_pos h1, emIterate_nil, if_neg (by push_cast; omega)]
      · rw [if_neg h1, ih (d - 1) (c + 1) (by omega)]
        by_cases h2 : (k : Int) < d - 1
        · rw [if_pos h2, if_pos (by push_cast; omega)]
          have e1 : d - 1 - (k : Int) = d - ((k + 1 : Nat) : Int) := by push_cast; ring
          have e2 : c + 1 + (k : Int) = c + ((k + 1 : Nat) : Int) := by push_cast; ring
          rw [e1, e2]
        · rw [if_neg h2, if_neg (by push_cast; omega)]

/-- C8: on every EffectSet tick each active effect is advanced
exactly once and finished effects are then purged; for Vibration and
BooleanToggle, is_finished holds exactly when the duration counter is
at most 0; no finished effect survives a manager tick, and a single
effect of positive duration d is advanced once per tick for d ticks
and is gone from the set afterwards, never advanced again. -/
theorem C8_effect_lifecycle :
    (∀ (t : TargetRef) (d m r dir : Int),
        (EffectE.vibration t d m r dir).is_finished = decide (d ≤ 0))
    ∧ (∀ (t : TargetRef) (d c : Int),
        (EffectE.toggle t d c).is_finished = decide (d ≤ 0))
    ∧ (∀ (l : List EffectE) (e : EffectE), e ∈ emUpdate l → e.is_finished = false)
    ∧ (∀ (t : TargetRef) (m r : Int) (k : Nat) (d dir : Int), 0 < d →
        emIterate k [EffectE.vibration t d m r dir]
          = if (k : Int) < d then [EffectE.vibration t (d - k) m r (dir * (-1) ^ k)] else [])
    ∧ (∀ (t : TargetRef) (k : Nat) (d c : Int), 0 < d →
        emIterate k [EffectE.toggle t d c]
          = if (k : Int) < d then [EffectE.toggle t (d - k) (c + k)] else []) := by
  refine ⟨fun _ _ _ _ _ => rfl, fun _ _ _ => rfl, ?_, ?_, ?_⟩
  · intro l e he
    have h := (List.mem_filter.mp he).2
    simpa using h
  · intro t m r k d dir hd
    exact emIterate_vibration t m r k d dir hd
  · intro t k d c hd
    exact emIterate_toggle t k d c hd

/-- Witness for C8: the vibration attached on a collision (duration
10) after one manager tick has duration 9 and flipped direction, and
a toggle of duration 2 is purged after two ticks. -/
theorem C8_effect_lifecycle_witness :
    ((0 : Int) < 10 ∧ (0 : Int) < 2)
    ∧ emIterate 1 [EffectE.vibration TargetRef.playerTransform 10 5 10 1]
        = (if ((1 : Nat) : Int) < 10 then
            [EffectE.vibration TargetRef.playerTransform (10 - ((1 : Nat) : Int)) 5 10
              (1 * (-1) ^ (1 : Nat))] else [])
    ∧ emIterate 2 [EffectE.toggle TargetRef.playerBlink 2 0]
        = (if ((2 : Nat) : Int) < 2 then
            [EffectE.toggle TargetRef.playerBlink (2 - ((2 : Nat) : Int)) (0 + ((2 : Nat) : Int))]
          else []) :=
  ⟨⟨by decide, by decide⟩,
   C8_effect_lifecycle.2.2.2.1 TargetRef.playerTransform 5 10 1 10 1 (by decide),
   C8_effect_lifecycle.2.2.2.2 TargetRef.playerBlink 2 2 0 (by decide)⟩

/-- A player without a destroyer effect keeps none through a frame. -/
theorem destroyerTick_none_state (p : Grenouille) :
    destroyerTick { p with destroyer_effect := none } = { p with destroyer_effect := none } := rfl

/-- Iterating frames on a player without a destroyer effect changes
nothing about the destroyer reference. -/
theorem destroyerTick_iter_none (k : Nat) (p : Grenouille) :
    destroyerTick^[k] { p with destroyer_effect := none }
      = { p with destroyer_effect := none } := by
  induction k with
  | zero => rfl
  | succ k ih =>
      rw [Function.iterate_succ_apply, destroyerTick_none_state]
      exact ih

/-- Destroyer timer evolution: starting from an attached toggle of
duration d at least 0, after k frames the reference holds duration
d - k while k is at most d, and is cleared for every larger k. -/
theorem destroyerTick_iter (k : Nat) : ∀ (p : Grenouille) (d c : Int), 0 ≤ d →
    destroyerTick^[k] { p with destroyer_effect := some (d, c) }
      = if (k : Int) ≤ d then { p with destroyer_effect := some (d - k, c + k) }
        else { p with destroyer_effect := none } := by
  induction k with
  | zero =>
      intro p d c hd
      rw [if_pos (by exact_mod_cast hd)]
      simp
  | succ k ih =>
      intro p d c hd
      rw [Function.iterate_succ_apply]
      by_cases hd0 : d ≤ 0
      · have ht : destroyerTick { p with destroyer_effect := some (d, c) }
            = { p with destroyer_effect := none } := by
          simp [destroyerTick, destroyerCheck, destroyerStep, hd0]
        rw [ht, destroyerTick_iter_none, if_neg (by push_cast; omega)]
      · have ht : destroyerTick { p with destroyer_effect := some (d, c) }
            = { p with destroyer_effect := some (d - 1, c + 1) } := by
          simp [destroyerTick, destroyerCheck, destroyerStep, hd0]
        rw [ht, ih p (d - 1) (c + 1) (by omega)]
        by_cases h2 : (k : Int) ≤ d - 1
        · rw [if_pos h2, if_pos (by push_cast; omega)]
          have e1 : d - 1 - (k : Int) = d - ((k + 1 : Nat) : Int) := by push_cast; ring
          have e2 : c + 1 + (k : Int) = c + ((k + 1 : Nat) : Int) := by push_cast; ring
          rw [e1, e2]
        · rw [if_neg h2, if_neg (by push_cast; omega)]

/-- C9: a DestroyerGrant pickup activates destroyer mode by storing a
fresh BooleanToggleEffect of duration FPS*3 (90 ticks) and appending
it, targeted at the blink cell, to the effect manager together with
the bonus sound, whatever the previous destroyer state was (a pickup
while already active resets the timer to the full 90 rather than
stacking); the mode then stays active through the 90 frames after
activation and is dropped automatically at the staleness check of the
following frame, once the attached effect is finished. -/
theorem C9_destroyer_grant :
    (∀ (st : HState) (b : BonusE), b.kind = BonusKind.destroy →
        bonusOverlap st.player b = true →
        (catchBonus st b).1.player.destroyer_effect = some (FPS * 3, 0)
        ∧ (catchBonus st b).1.effects
            = st.effects ++ [EffectE.toggle TargetRef.playerBlink (FPS * 3) 0,
                             EffectE.soundFx SoundId.bonus false]
        ∧ (catchBonus st b).2 = true)
    ∧ (∀ (p : Grenouille) (k : Nat),
        (destroyerTick^[k] { p with destroyer_effect := some (FPS * 3, 0) }).in_destroy_mode
          = decide (k ≤ 90)) := by
  constructor
  · intro st b hk hov
    refine ⟨?_, ?_, ?_⟩ <;> simp [catchBonus, hov, hk, activate_destroyer_mode]
  · intro p k
    rw [destroyerTick_iter k p (FPS * 3) 0 (by norm_num [FPS])]
    by_cases hk : (k : Int) ≤ FPS * 3
    · rw [if_pos hk]
      have h90 : k ≤ 90 := by
        norm_num [FPS] at hk
        exact_mod_cast hk
      simp [Grenouille.in_destroy_mode, h90]
    · rw [if_neg hk]
      have h90 : ¬ k ≤ 90 := by
        intro h
        apply hk
        have hi : (k : Int) ≤ 90 := by exact_mod_cast h
        norm_num [FPS]
        exact_mod_cast hi
      simp [Grenouille.in_destroy_mode, h90]

/-- Witness for C9: a DestroyerGrant caught by a player whose
destroyer timer is mid-flight resets the reference to the full
duration. -/
theorem C9_destroyer_grant_witness :
    (({ x := 110, y := 350, kind := BonusKind.destroy } : BonusE).kind = BonusKind.destroy
      ∧ bonusOverlap ({ x := 100, y := 360, destroyer_effect := some (17, 3) } : Grenouille)
          { x := 110, y := 350, kind := BonusKind.destroy } = true)
    ∧ (catchBonus { player := { x := 100, y := 360, destroyer_effect := some (17, 3) } }
        { x := 110, y := 350, kind := BonusKind.destroy }).1.player.destroyer_effect
      = some (FPS * 3, 0) :=
  ⟨⟨rfl, by decide⟩,
   (C9_destroyer_grant.1 { player := { x := 100, y := 360, destroyer_effect := some (17, 3) } }
      { x := 110, y := 350, kind := BonusKind.destroy } rfl (by decide)).1⟩

/-- The collision-relevant view of the player: position, width, mask
and crouch flag, the only player fields check_collision reads. -/
def pView (p : Grenouille) : Int × Int × Int × List (Int × Int) × Bool :=
  (p.x, p.y, p.width, p.mask, p.is_crouching)

/-- Unpack an equality of collision views. -/
theorem pView_fields {p q : Grenouille} (h : pView p = pView q) :
    p.x = q.x ∧ p.y = q.y ∧ p.width = q.width ∧ p.mask = q.mask
      ∧ p.is_crouching = q.is_crouching := by
  simpa [pView, Prod.ext_iff] using h

/-- check_collision only depends on the collision view of the
player. -/
theorem check_collision_congr (ob : Obstacle) (p q : Grenouille) (h : pView p = pView q) :
    ob.check_collision p = ob.check_collision q := by
  obtain ⟨h1, h2, h3, h4, h5⟩ := pView_fields h
  rcases hk : ob.kind
  · simp only [Obstacle.check_collision, hk]
    rw [h1, h2, h4]
  · simp only [Obstacle.check_collision, hk]
    rw [h5, h1, h3]

/-- handle_collision never changes the collision view of the player:
it only touches vy, lives, the queued effects and the token. -/
theorem handleCollision_pView (st : HState) (ob : Obstacle) :
    pView (handleCollision st ob).1.player = pView st.player := by
  unfold handleCollision
  repeat' split
  all_goals rfl

/-- The token after one scan: updated to this obstacle exactly when
the scan resolves, that is in both the destroy and the damage branch,
and kept otherwise. -/
theorem handleCollision_last (st : HState) (ob : Obstacle) :
    (handleCollision st ob).1.last_collided
      = if resolves st ob then some ob.id else st.last_collided := by
  unfold handleCollision resolves
  by_cases hc : ob.check_collision st.player
  · by_cases hd : st.last_collided = some ob.id
    · simp [hc, hd]
    · by_cases hm : st.player.in_destroy_mode = true <;> simp [hc, hd, hm]
  · simp [hc]

/-- A scan of a non-colliding or debounced obstacle is a no-op. -/
theorem handleCollision_skip (st : HState) (ob : Obstacle)
    (h : ob.check_collision st.player = false ∨ st.last_collided = some ob.id) :
    handleCollision st ob = (st, ob) := by
  unfold handleCollision
  rcases h with h | h
  · simp [h]
  · by_cases hc : ob.check_collision st.player <;> simp [hc, h]

/-- A full scan in which every obstacle either does not collide or is
the debounce token changes nothing and resolves nothing. -/
theorem collisionPass_skip_all (obs : List Obstacle) : ∀ st : HState,
    (∀ ob ∈ obs, ob.check_collision st.player = false ∨ st.last_collided = some ob.id) →
    collisionPass st obs = st ∧ collisionCount st obs = 0 := by
  induction obs with
  | nil => intro st _; exact ⟨rfl, rfl⟩
  | cons ob rest ih =>
      intro st h
      have hob := h ob (List.mem_cons_self ob rest)
      have hskip := handleCollision_skip st ob hob
      have hres : resolves st ob = false := by
        rcases hob with h1 | h1
        · simp [resolves, h1]
        · simp [resolves, h1]
      have htl := ih st (fun o ho => h o (List.mem_cons_of_mem _ ho))
      constructor
      · show collisionPass (handleCollision st ob).1 rest = st
        rw [hskip]
        exact htl.1
      · show (if resolves st ob then 1 else 0) + collisionCount (handleCollision st ob).1 rest = 0
        rw [hres, hskip]
        simpa using htl.2

/-- A scan of a queue holding exactly one colliding obstacle with a
given id while every other queued obstacle does not collide, starting
with a token different from that id, resolves exactly once, leaves
the token on that id, and keeps the collision view of the player. -/
theorem collisionPass_single (oid : Nat) (obs : List Obstacle) : ∀ st : HState,
    st.last_collided ≠ some oid →
    (∀ ob ∈ obs, (ob.id = oid → ob.check_collision st.player = true)
        ∧ (ob.id ≠ oid → ob.check_collision st.player = false)) →
    obs.countP (fun o => decide (o.id = oid)) = 1 →
    collisionCount st obs = 1
    ∧ (collisionPass st obs).last_collided = some oid
    ∧ pView (collisionPass st obs).player = pView st.player := by
  induction obs with
  | nil =>
      intro st _ _ hcount
      rw [List.countP_nil] at hcount
      simp at hcount
  | cons ob rest ih =>
      intro st hlast h hcount
      by_cases hid : ob.id = oid
      · have hc : ob.check_collision st.player = true :=
          (h ob (List.mem_cons_self ob rest)).1 hid
        have hrest0 : rest.countP (fun o => decide (o.id = oid)) = 0 := by
          rw [List.countP_cons] at hcount
          have hpo : (if decide (ob.id = oid) = true then 1 else 0) = 1 := by simp [hid]
          rw [hpo] at hcount
          omega
        have hrestne : ∀ o ∈ rest, o.id ≠ oid := by
          intro o ho
          have := List.countP_eq_zero.mp hrest0 o ho
          simpa using this
        have hres : resolves st ob = true := by
          simp [resolves, hc]
          intro he
          rw [he, hid] at hlast
          exact hlast rfl
        set st1 := (handleCollision st ob).1 with hst1
        have hview : pView st1.player = pView st.player := handleCollision_pView st ob
        have hlast1 : st1.last_collided = some oid := by
          rw [hst1, handleCollision_last, if_pos hres, hid]
        have hskiprest := collisionPass_skip_all rest st1 (by
          intro o ho
          left
          rw [check_collision_congr o st1.player st.player hview]
          exact (h o (List.mem_cons_of_mem _ ho)).2 (hrestne o ho))
        refine ⟨?_, ?_, ?_⟩
        · show (if resolves st ob then 1 else 0) + collisionCount st1 rest = 1
          rw [hres, hskiprest.2]
          decide
        · show (collisionPass st1 rest).last_collided = some oid
          rw [hskiprest.1]
          exact hlast1
        · show pView (collisionPass st1 rest).player = pView st.player
          rw [hskiprest.1]
          exact hview
      · have hc : ob.check_collision st.player = false :=
          (h ob (List.mem_cons_self ob rest)).2 hid
        have hskip := handleCollision_skip st ob (Or.inl hc)
        have hres : resolves st ob = false := by simp [resolves, hc]
        have hrest1 : rest.countP (fun o => decide (o.id = oid)) = 1 := by
          rw [List.countP_cons] at hcount
          have hpo : (if decide (ob.id = oid) = true then 1 else 0) = 0 := by simp [hid]
          rw [hpo] at hcount
          omega
        have htl := ih st hlast (fun o ho => h o (List.mem_cons_of_mem _ ho)) hrest1
        refine ⟨?_, ?_, ?_⟩
        · show (if resolves st ob then 1 else 0) + collisionCount (handleCollision st ob).1 rest = 1
          rw [hres, hskip]
          simpa using htl.1
        · show (collisionPass (handleCollision st ob).1 rest).last_collided = some oid
          rw [hskip]
          exact htl.2.1
        · show pView (collisionPass (handleCollision st ob).1 rest).player = pView st.player
          rw [hskip]
          exact htl.2.2

/-- Once the token sits on a given obstacle id, frames in which every
other obstacle misses the player resolve nothing at all: the overlap
of the token obstacle keeps being debounced. -/
theorem runTicks_debounced (oid : Nat) (p0 : Grenouille) :
    ∀ (trace : List Tick) (st : HState),
    st.last_collided = some oid →
    st.player.width = p0.width →
    st.player.mask = p0.mask →
    st.player.is_crouching = p0.is_crouching →
    (∀ t ∈ trace, ∀ ob ∈ t.obs, ob.id ≠ oid →
        ob.check_collision (p0.setPos t.px t.py) = false) →
    (runTicks st trace).2 = 0 := by
  intro trace
  induction trace with
  | nil => intro st _ _ _ _ _; rfl
  | cons t rest ih =>
      intro st hlast hw hm hc hfalse
      have hview : pView ({ st with player := st.player.setPos t.px t.py }).player
          = pView (p0.setPos t.px t.py) := by
        simp [pView, Grenouille.setPos, hw, hm, hc]
      have hskip := collisionPass_skip_all t.obs
        { st with player := st.player.setPos t.px t.py } (by
          intro ob hob
          by_cases hid : ob.id = oid
          · right
            show st.last_collided = some ob.id
            rw [hlast, hid]
          · left
            rw [check_collision_congr ob _ _ hview]
            exact hfalse t (List.mem_cons_self t rest) ob hob hid)
      show collisionCount { st with player := st.player.setPos t.px t.py } t.obs
            + (runTicks (collisionPass { st with player := st.player.setPos t.px t.py } t.obs)
                rest).2 = 0
      rw [hskip.2, hskip.1]
      simp only [Nat.zero_add]
      exact ih { st with player := st.player.setPos t.px t.py } hlast hw hm hc
        (fun t' ht' => hfalse t' (List.mem_cons_of_mem _ ht'))

/-- C6: over any nonempty run of consecutive frames in which one
obstacle (identified by its id, standing for Python object identity)
overlaps the player on every frame while no other queued obstacle
overlaps, and whose overlap is new to the debounce token, exactly one
damage-or-destroy resolution happens in total, not one per frame; and
the token is updated to the colliding obstacle whenever a resolution
happens, regardless of which branch (destroy or damage) is taken. -/
theorem C6_debounced_overlap :
    (∀ (trace : List Tick) (st : HState) (oid : Nat),
        trace ≠ [] →
        st.last_collided ≠ some oid →
        (∀ t ∈ trace,
          (∀ ob ∈ t.obs,
            (ob.id = oid → ob.check_collision (st.player.setPos t.px t.py) = true)
            ∧ (ob.id ≠ oid → ob.check_collision (st.player.setPos t.px t.py) = false))
          ∧ t.obs.countP (fun o => decide (o.id = oid)) = 1) →
        (runTicks st trace).2 = 1)
    ∧ (∀ (st : HState) (ob : Obstacle),
        ob.check_collision st.player = true →
        st.last_collided ≠ some ob.id →
        (handleCollision st ob).1.last_collided = some ob.id) := by
  constructor
  · intro trace st oid hne hlast h
    rcases trace with _ | ⟨t, rest⟩
    · exact absurd rfl hne
    have ht := h t (List.mem_cons_self t rest)
    obtain ⟨hcount1, hlast1, hview1⟩ :=
      collisionPass_single oid t.obs { st with player := st.player.setPos t.px t.py }
        hlast ht.1 ht.2
    have hf := pView_fields hview1
    have hzero := runTicks_debounced oid st.player rest
      (collisionPass { st with player := st.player.setPos t.px t.py } t.obs)
      hlast1 hf.2.2.1 hf.2.2.2.1 hf.2.2.2.2
      (fun t' ht' ob hob hid => ((h t' (List.mem_cons_of_mem _ ht')).1 ob hob).2 hid)
    show collisionCount { st with player := st.player.setPos t.px t.py } t.obs
          + (runTicks (collisionPass { st with player := st.player.setPos t.px t.py } t.obs)
              rest).2 = 1
    rw [hcount1, hzero]
  · intro st ob hc hd
    rw [handleCollision_last, if_pos]
    simp [resolves, hc, hd]

/-- Witness for C6: a plant overlapping the player for two
consecutive frames is resolved exactly once. -/
theorem C6_debounced_overlap_witness :
    (([{ px := 100, py := 360, obs := [{ id := 5, kind := ObstacleKind.plant, x := 110, y := 330, width := 40 }] },
       { px := 100, py := 360, obs := [{ id := 5, kind := ObstacleKind.plant, x := 105, y := 330, width := 40 }] }] : List Tick) ≠ []
      ∧ ({ player := { x := 100, y := 360 } } : HState).last_collided ≠ some 5)
    ∧ (runTicks { player := { x := 100, y := 360 } }
        [{ px := 100, py := 360, obs := [{ id := 5, kind := ObstacleKind.plant, x := 110, y := 330, width := 40 }] },
         { px := 100, py := 360, obs := [{ id := 5, kind := ObstacleKind.plant, x := 105, y := 330, width := 40 }] }]).2
      = 1 :=
  ⟨⟨by decide, by decide⟩,
   C6_debounced_overlap.1
     [{ px := 100, py := 360, obs := [{ id := 5, kind := ObstacleKind.plant, x := 110, y := 330, width := 40 }] },
      { px := 100, py := 360, obs := [{ id := 5, kind := ObstacleKind.plant, x := 105, y := 330, width := 40 }] }]
     { player := { x := 100, y := 360 } } 5 (by decide) (by decide) (by decide)⟩
